import Mathlib

/-!
Shallow embedding of the `service-pollinations-key-swap` repository:
the credential pool (`db/models.py`), the reverse-proxy rotation handler
(`api/server.py`), the tunnel-descriptor parser and daemon config
generator (`services/vless.py`), the balance prober
(`services/pollinations.py`) and the reconciliation sweep (`bot.py`).
-/

/-! ## Data model (`db/database.py` schema, joined view used by the code) -/

/-- A row of `api_keys`, joined (as in `models.get_active_key` /
`models.get_all_keys`) with the bound `vless_configs.config_index`.
`pollenBalance = none` models SQL NULL. -/
structure ApiKey where
  id : Nat
  key : String
  keyIndex : Nat
  isActive : Bool
  pollenBalance : Option ℚ
  nextResetAt : Option String
  balanceCheckedAt : Option String
  vlessConfigIndex : Option Nat
deriving DecidableEq, Repr

/-- A row of `service_tokens`. -/
structure ServiceToken where
  id : Nat
  token : String
  name : String
  isActive : Bool
deriving DecidableEq, Repr

/-- A row of `request_log` (append-only). -/
structure LogEntry where
  path : String
  method : String
  status : String
  keyId : Option Nat
  tokenId : Option Nat
deriving DecidableEq, Repr

/-! ## Credential pool (`db/models.py`) -/

/-- SQLite comparison `pollen_balance < pollen_balance` with NULL smallest,
as used by `ORDER BY pollen_balance DESC` (NULLs sort last in DESC). -/
def ballt : Option ℚ → Option ℚ → Bool
  | none, none => false
  | none, some _ => true
  | some _, none => false
  | some a, some b => decide (a < b)

/-- The `WHERE` clause of `models.get_active_key`:
`is_active = 1 AND (pollen_balance IS NULL OR pollen_balance >= threshold)`. -/
def eligibleKey (threshold : ℚ) (k : ApiKey) : Bool :=
  k.isActive &&
    (match k.pollenBalance with
     | none => true
     | some b => decide (threshold ≤ b))

/-- Insertion step of one admissible balance-descending order.  The SQL
`ORDER BY pollen_balance DESC` carries no secondary sort term, so SQLite
leaves the relative order of equal balances unspecified; to keep the
handler executable this model fixes one admissible order (new element
before equal balances).  Nothing proved about the program may depend on
this choice: the faithful contract is `select_best_admissible`, and
`get_active_key_admissible` shows this function refines it. -/
def insertDescBal (a : ApiKey) : List ApiKey → List ApiKey
  | [] => [a]
  | b :: l =>
      if ballt a.pollenBalance b.pollenBalance then b :: insertDescBal a l
      else a :: b :: l

/-- One admissible result order of `ORDER BY pollen_balance DESC` (NULLs
last); see the caveat on `insertDescBal`: the tie order realised here is a
model choice, not a guarantee of the query. -/
def sortDescBal : List ApiKey → List ApiKey
  | [] => []
  | a :: l => insertDescBal a (sortDescBal l)

/-- The Python scan in `models.get_active_key`: return the first row whose
id is not in `exclude_ids`. -/
def firstNotExcluded (excl : List Nat) : List ApiKey → Option ApiKey
  | [] => none
  | k :: l => if k.id ∈ excl then firstNotExcluded excl l else some k

/-- `models.get_active_key(balance_threshold, exclude_ids)`: filter by the
`WHERE` clause, order by balance descending, return the first row not
excluded. `keys` is the table in stored (ascending rowid) order.  This is
executable by fixing one admissible tie order (`sortDescBal`); every
property of the selection that the code actually guarantees is stated
against `select_best_admissible` instead. -/
def get_active_key (threshold : ℚ) (excl : List Nat) (keys : List ApiKey) :
    Option ApiKey :=
  firstNotExcluded excl (sortDescBal (keys.filter (eligibleKey threshold)))

/-- The faithful contract of `models.get_active_key`: SQLite returns the
matching rows in SOME order that is non-increasing in `pollen_balance`
(NULL smallest, hence last in DESC) — the query has no secondary sort
term, so which order is unspecified on ties — and the Python scan takes
the first row not excluded.  `res` is an admissible result iff some such
ordering produces it. -/
def select_best_admissible (threshold : ℚ) (excl : List Nat)
    (keys : List ApiKey) (res : Option ApiKey) : Prop :=
  ∃ rows : List ApiKey,
    rows.Perm (keys.filter (eligibleKey threshold)) ∧
    List.Pairwise (fun x y => ballt x.pollenBalance y.pollenBalance = false) rows ∧
    firstNotExcluded excl rows = res

/-- `UPDATE api_keys SET ... WHERE id = ?` applied to the in-memory table. -/
def mapById (i : Nat) (f : ApiKey → ApiKey) (keys : List ApiKey) :
    List ApiKey :=
  keys.map (fun k => if k.id = i then f k else k)

/-- `models.deactivate_key`. -/
def deactivate_key (i : Nat) : List ApiKey → List ApiKey :=
  mapById i (fun k => { k with isActive := false })

/-- `models.update_key_balance` (also stamps `balance_checked_at` with the
current time, passed in as `now`). -/
def update_key_balance (i : Nat) (bal : Option ℚ) (nextReset : Option String)
    (now : String) : List ApiKey → List ApiKey :=
  mapById i (fun k =>
    { k with pollenBalance := bal, nextResetAt := nextReset,
             balanceCheckedAt := some now })

/-- `models.get_token_by_value`: `WHERE token = ? AND is_active = 1`,
first row. -/
def get_token_by_value (v : String) (tokens : List ServiceToken) :
    Option ServiceToken :=
  tokens.find? (fun t => t.token == v && t.isActive)

/-! ## Ingress proxy (`api/server.py`) -/

/-- An HTTP request as seen by `proxy_handler`. -/
structure Request where
  method : String
  path : String
  queryString : String
  headers : List (String × String)
  body : String
deriving DecidableEq, Repr

/-- One upstream attempt's outcome: an HTTP response (status and body) or a
raised transport exception. The oracle is keyed by the credential secret
placed in the forwarded `Authorization` header. -/
inductive UpstreamResult where
  | status (code : Nat) (body : String)
  | exn (msg : String)
deriving DecidableEq, Repr

/-- Bodies the handler can produce: structured JSON error objects, a
relayed upstream body, or the health/status reports. -/
inductive RespBody where
  | jsonError (msg : String)
  | upstream (body : String)
  | healthReport (activeKeys : Nat) (xray : Bool)
  | statusReport (entries : List (String × Option ℚ × Bool))
deriving DecidableEq, Repr

/-- A response to the client. -/
structure Response where
  status : Nat
  body : RespBody
deriving DecidableEq, Repr

/-- The mutable state the handler reads and writes: the credential table
and the append-only request log. -/
structure ProxyState where
  keys : List ApiKey
  log : List LogEntry
deriving DecidableEq, Repr

/-- `request.headers.get(name, dflt)`. -/
def headerD (headers : List (String × String)) (name dflt : String) : String :=
  match headers.find? (fun p => p.fst == name) with
  | some p => p.snd
  | none => dflt

/-- `auth.startswith("Bearer ")`. -/
def bearerForm (auth : String) : Bool :=
  "Bearer ".toList.isPrefixOf auth.toList

/-- `auth[7:]`, the presented token value. -/
def bearerValue (auth : String) : String :=
  ⟨auth.toList.drop 7⟩

/-- `server._authenticate`: require `Authorization: Bearer <token>` naming
an active service token; otherwise a 401 JSON error. -/
def authenticate (headers : List (String × String))
    (tokens : List ServiceToken) : Except Response ServiceToken :=
  let auth := headerD headers "Authorization" ""
  if bearerForm auth then
    match get_token_by_value (bearerValue auth) tokens with
    | some t => .ok t
    | none => .error ⟨401, .jsonError "Invalid or revoked token"⟩
  else
    .error ⟨401, .jsonError "Missing or invalid Authorization header. Use: Bearer <token>"⟩

/-- The outcome tag logged for a returned upstream response:
`"ok" if status < 400 else "error_<code>"`. -/
def status_tag (c : Nat) : String :=
  if c < 400 then "ok" else "error_" ++ toString c

/-- The rotation loop of `server.proxy_handler` (`for _attempt in range(3)`
with `tried_keys`), one fuel unit per remaining attempt. Besides the
response and the state it returns the list of credential ids actually sent
upstream, in order. -/
def rotate (upstream : String → UpstreamResult) (threshold : ℚ)
    (now path method : String) (tokenId : Nat) :
    Nat → List Nat → ProxyState → Response × ProxyState × List Nat
  | 0, _, st =>
      (⟨503, .jsonError "No active API keys available"⟩,
       { st with log := st.log ++ [⟨path, method, "no_keys", none, some tokenId⟩] },
       [])
  | n + 1, tried, st =>
      match get_active_key threshold tried st.keys with
      | none =>
          (⟨503, .jsonError "No active API keys available"⟩,
           { st with log := st.log ++ [⟨path, method, "no_keys", none, some tokenId⟩] },
           [])
      | some kd =>
          match upstream kd.key with
          | .exn _ =>
              (⟨502, .jsonError "Upstream connection failed"⟩,
               { st with log := st.log ++ [⟨path, method, "exception", some kd.id, some tokenId⟩] },
               [kd.id])
          | .status c b =>
              if c = 402 then
                let keys2 := update_key_balance kd.id (some 0) none now
                  (deactivate_key kd.id st.keys)
                let st2 : ProxyState :=
                  ⟨keys2, st.log ++ [⟨path, method, "key_exhausted", some kd.id, some tokenId⟩]⟩
                let r := rotate upstream threshold now path method tokenId n (kd.id :: tried) st2
                (r.1, r.2.1, kd.id :: r.2.2)
              else
                (⟨c, .upstream b⟩,
                 { st with log := st.log ++ [⟨path, method, status_tag c, some kd.id, some tokenId⟩] },
                 [kd.id])

/-- `server.proxy_handler`: health/status short-circuit, authentication,
then up to 3 rotation attempts.  The third component of the result is the
list of credential ids sent upstream. -/
def proxy_handler (tokens : List ServiceToken) (upstream : String → UpstreamResult)
    (threshold : ℚ) (now : String) (xrayRunning : Bool) (req : Request)
    (st : ProxyState) : Response × ProxyState × List Nat :=
  if req.path = "/health" then
    (⟨200, .healthReport ((st.keys.filter (·.isActive)).length) xrayRunning⟩, st, [])
  else if req.path = "/status" then
    (⟨200, .statusReport (st.keys.map (fun k => ((⟨k.key.toList.take 6⟩ : String) ++ "...", k.pollenBalance, k.isActive)))⟩,
     st, [])
  else
    match authenticate req.headers tokens with
    | .error e => (e, st, [])
    | .ok tok => rotate upstream threshold now req.path req.method tok.id 3 [] st

/-- `server._get_connector`: the local SOCKS port the proxy dials for a
credential bound to the tunnel with stored config index `idx`
(`none` means a direct connection). -/
def get_connector_port (xrayRunning : Bool) (idx : Option Nat) : Option Nat :=
  if !xrayRunning then none
  else
    match idx with
    | none => none
    | some i => some (10801 + i)

/-! ## Tunnel descriptor parser (`services/vless.py`) -/

/-- ASCII whitespace stripped by Python `str.strip()` (Python also strips
the other Unicode whitespace code points; the model covers the ASCII
ones, which is all the analysed inputs contain). -/
def pySpace (c : Char) : Bool :=
  c = ' ' || c = '\t' || c = '\n' || c = '\r' || c = '\x0b' || c = '\x0c'

/-- Python `str.strip()`. -/
def pyStrip (s : String) : String :=
  ⟨((s.toList.dropWhile pySpace).reverse.dropWhile pySpace).reverse⟩

/-- Python `str.startswith(pre)`. -/
def strStartsWith (s pre : String) : Bool :=
  pre.toList.isPrefixOf s.toList

/-- Python `s[n:]` by code points. -/
def strDrop (s : String) (n : Nat) : String :=
  ⟨s.toList.drop n⟩

/-- Split a character list at the first occurrence of `c`
(Python `str.split(c, 1)` when it returns two parts; `none` when `c` is
absent). -/
def splitFirstChar (c : Char) : List Char → Option (List Char × List Char)
  | [] => none
  | x :: xs =>
      if x = c then some ([], xs)
      else
        match splitFirstChar c xs with
        | none => none
        | some p => some (x :: p.1, p.2)

/-- Split a string at the last occurrence of `c`
(Python `str.rsplit(c, 1)` when it returns two parts). -/
def rsplitOnceChar (c : Char) (s : String) : Option (String × String) :=
  match splitFirstChar c s.toList.reverse with
  | none => none
  | some p => some (⟨p.2.reverse⟩, ⟨p.1.reverse⟩)

/-- Hex digit value, if any. -/
def hexVal (c : Char) : Option Nat :=
  if '0' ≤ c ∧ c ≤ '9' then some (c.toNat - 48)
  else if 'a' ≤ c ∧ c ≤ 'f' then some (c.toNat - 87)
  else if 'A' ≤ c ∧ c ≤ 'F' then some (c.toNat - 55)
  else none

/-- `urllib.parse.unquote` on characters: decode `%hh` escapes, leave
malformed escapes untouched; total.  (Python decodes runs of escaped
bytes as UTF-8, producing U+FFFD on invalid sequences; this model maps
each byte to its own code point, which agrees on the ASCII escapes the
analysed inputs use and is total either way.) -/
def unquoteChars : List Char → List Char
  | '%' :: a :: b :: rest =>
      (match hexVal a, hexVal b with
       | some x, some y => Char.ofNat (16 * x + y) :: unquoteChars rest
       | _, _ => '%' :: unquoteChars (a :: b :: rest))
  | x :: rest => x :: unquoteChars rest
  | [] => []

/-- `urllib.parse.unquote`. -/
def pyUnquote (s : String) : String := ⟨unquoteChars s.toList⟩

/-- `urllib.parse.unquote_plus` (used by `parse_qs`): `+` becomes a space,
then percent-decoding. -/
def pyUnquotePlus (s : String) : String :=
  ⟨unquoteChars (s.toList.map (fun ch => if ch = '+' then ' ' else ch))⟩

/-- Split a character list on every occurrence of `c` (Python
`str.split(c)` with no limit). -/
def splitOnChar (c : Char) : List Char → List (List Char)
  | [] => [[]]
  | x :: xs =>
      let r := splitOnChar c xs
      if x = c then [] :: r
      else
        match r with
        | h :: t => (x :: h) :: t
        | [] => [[x]]

/-- `urllib.parse.parse_qs` restricted to what the caller consumes: split
the query on `&`, split each field at its first `=`, drop fields without
`=` and fields with an empty value (`keep_blank_values=False`), decode
keys and values with `unquote_plus`.  The resulting association list keeps
occurrence order, so a first-match lookup models `parse_qs(...)[k][0]`. -/
def parseQSPairs (qs : String) : List (String × String) :=
  (splitOnChar '&' qs.toList).foldr
    (fun field acc =>
      match splitFirstChar '=' field with
      | none => acc
      | some p =>
          if p.2 = [] then acc
          else (pyUnquotePlus ⟨p.1⟩, pyUnquotePlus ⟨p.2⟩) :: acc)
    []

/-- First-occurrence lookup with default, modelling
`params.get(k, d)` where `params = {k: v[0] for ...}`. -/
def paramD (params : List (String × String)) (k d : String) : String :=
  match params.find? (fun p => p.fst == k) with
  | some p => p.snd
  | none => d

/-- Digit run of a Python `int()` literal: digits with single underscores
strictly between digits.  `sawDigit` records whether the previous
character was a digit. -/
def pyDigitsAux : List Char → Nat → Bool → Option Nat
  | [], acc, sawDigit => if sawDigit then some acc else none
  | c :: rest, acc, sawDigit =>
      if c.isDigit then pyDigitsAux rest (acc * 10 + (c.toNat - 48)) true
      else if c = '_' then
        if sawDigit then pyDigitsAux rest acc false else none
      else none

/-- Python `int(s)` on a string: strip whitespace, optional sign, digit
run; `none` models a raised `ValueError`. -/
def pyParseInt (s : String) : Option Int :=
  match (pyStrip s).toList with
  | '+' :: rest => (pyDigitsAux rest 0 false).map Int.ofNat
  | '-' :: rest => (pyDigitsAux rest 0 false).map (fun n => -(n : Int))
  | l => (pyDigitsAux l 0 false).map Int.ofNat

/-- The parsed tunnel descriptor built by `vless.parse_vless_url`
(`type` is a Lean keyword, hence `type'`). -/
structure VlessCfg where
  uuid : String
  host : String
  port : Int
  remark : String
  type' : String
  security : String
  sni : String
  fp : String
  pbk : String
  sid : String
  path : String
  host_header : String
  serviceName : String
  flow : String
  alpn : String
  encryption : String
deriving DecidableEq, Repr

/-- `vless.parse_vless_url`.  `.ok none` is Python `return None`;
`.error` is an exception escaping the function (there is no handler around
`int(port_str)`). -/
def parse_vless_url (url : String) : Except String (Option VlessCfg) :=
  let url1 := pyStrip url
  if ¬ strStartsWith url1 "vless://" then .ok none
  else
    let ur :=
      match rsplitOnceChar '#' url1 with
      | some p => (p.1, pyUnquote p.2)
      | none => (url1, "")
    let without_scheme := strDrop ur.1 8
    match splitFirstChar '@' without_scheme.toList with
    | none => .ok none
    | some ur2 =>
        let uuid_part : String := ⟨ur2.1⟩
        let hq :=
          match splitFirstChar '?' ur2.2 with
          | some p => (p.1, (⟨p.2⟩ : String))
          | none => (ur2.2, "")
        let hostPort : Except String (String × Int) :=
          match splitFirstChar ':' hq.1.reverse with
          | some p =>
              match pyParseInt ⟨p.1.reverse⟩ with
              | some n => .ok (⟨p.2.reverse⟩, n)
              | none => .error "ValueError"
          | none => .ok (⟨hq.1⟩, 443)
        match hostPort with
        | .error e => .error e
        | .ok hp =>
            let params := if hq.2 = "" then [] else parseQSPairs hq.2
            .ok (some
              { uuid := uuid_part
                host := hp.1
                port := hp.2
                remark := ur.2
                type' := paramD params "type" "tcp"
                security := paramD params "security" "none"
                sni := paramD params "sni" ""
                fp := paramD params "fp" ""
                pbk := paramD params "pbk" ""
                sid := paramD params "sid" ""
                path := paramD params "path" ""
                host_header := paramD params "host" ""
                serviceName := paramD params "serviceName" ""
                flow := paramD params "flow" ""
                alpn := paramD params "alpn" ""
                encryption := paramD params "encryption" "none" })

/-! ## Daemon config generator (`services/vless.py`) -/

/-- `wsSettings` ("path"/"headers" keys present only when non-empty). -/
structure WsSettings where
  path : Option String
  hostHeader : Option String
deriving DecidableEq, Repr

/-- `grpcSettings`. -/
structure GrpcSettings where
  serviceName : Option String
deriving DecidableEq, Repr

/-- `tlsSettings`. -/
structure TlsSettings where
  serverName : Option String
  fingerprint : Option String
  alpn : Option (List String)
deriving DecidableEq, Repr

/-- `realitySettings`. -/
structure RealitySettings where
  serverName : Option String
  fingerprint : Option String
  publicKey : Option String
  shortId : Option String
deriving DecidableEq, Repr

/-- The `streamSettings` dict assembled by `vless._build_stream_settings`;
a `none` field models an absent key. -/
structure StreamSettings where
  network : String
  security : String
  wsSettings : Option WsSettings
  grpcSettings : Option GrpcSettings
  tcpSettings : Option Unit
  tlsSettings : Option TlsSettings
  realitySettings : Option RealitySettings
deriving DecidableEq, Repr

/-- A string field propagated only when non-empty (Python truthiness). -/
def optStr (s : String) : Option String :=
  if s = "" then none else some s

/-- `cfg["alpn"].split(",")`. -/
def splitCommas (s : String) : List String :=
  (splitOnChar ',' s.toList).map (fun l => (⟨l⟩ : String))

/-- `vless._build_stream_settings`. -/
def build_stream_settings (cfg : VlessCfg) : StreamSettings :=
  let base : StreamSettings :=
    ⟨cfg.type', "", none, none, none, none, none⟩
  let s1 :=
    if cfg.type' = "ws" then
      { base with wsSettings := some ⟨optStr cfg.path, optStr cfg.host_header⟩ }
    else if cfg.type' = "grpc" then
      { base with grpcSettings := some ⟨optStr cfg.serviceName⟩ }
    else if cfg.type' = "tcp" then
      { base with tcpSettings := some () }
    else base
  if cfg.security = "tls" then
    { s1 with
        security := "tls"
        tlsSettings := some ⟨optStr cfg.sni, optStr cfg.fp,
          if cfg.alpn = "" then none else some (splitCommas cfg.alpn)⟩ }
  else if cfg.security = "reality" then
    { s1 with
        security := "reality"
        realitySettings := some ⟨optStr cfg.sni, optStr cfg.fp,
          optStr cfg.pbk, optStr cfg.sid⟩ }
  else { s1 with security := "none" }

/-- One SOCKS inbound of the generated daemon config. -/
structure Inbound where
  tag : String
  port : Nat
  listen : String
  protocol : String
deriving DecidableEq, Repr

/-- The single `vnext` user of an outbound. -/
structure VnextUser where
  id : String
  encryption : String
  flow : Option String
deriving DecidableEq, Repr

/-- One VLESS outbound of the generated daemon config. -/
structure Outbound where
  tag : String
  protocol : String
  address : String
  port : Int
  user : VnextUser
  streamSettings : StreamSettings
deriving DecidableEq, Repr

/-- One routing rule (`"type": "field"` is implicit). -/
structure RoutingRule where
  inboundTag : List String
  outboundTag : String
deriving DecidableEq, Repr

/-- The generated daemon configuration. -/
structure XrayConfig where
  inbounds : List Inbound
  outbounds : List Outbound
  rules : List RoutingRule
deriving DecidableEq, Repr

/-- The inbound built for position `i` of the config list:
`127.0.0.1:(10801+i)`, SOCKS protocol, tag `socks-in-<i>`. -/
def mkInbound (i : Nat) : Inbound :=
  ⟨"socks-in-" ++ toString i, 10801 + i, "127.0.0.1", "socks"⟩

/-- The outbound built for position `i`. -/
def mkOutbound (i : Nat) (cfg : VlessCfg) : Outbound :=
  ⟨"vless-" ++ toString i, "vless", cfg.host, cfg.port,
   ⟨cfg.uuid, cfg.encryption, if cfg.flow = "" then none else some cfg.flow⟩,
   build_stream_settings cfg⟩

/-- The routing rule binding inbound `i` 1:1 to outbound `i`. -/
def mkRule (i : Nat) : RoutingRule :=
  ⟨["socks-in-" ++ toString i], "vless-" ++ toString i⟩

/-- The loops of `vless.generate_xray_config` over the already-parsed
descriptor list (`for i, cfg in enumerate(configs)` and
`for i in range(len(configs))`); `none` is the empty-dict early return. -/
def generate_xray_config_core (configs : List VlessCfg) : Option XrayConfig :=
  if configs = [] then none
  else
    some
      ⟨(List.range configs.length).map mkInbound,
       configs.enum.map (fun p => mkOutbound p.1 p.2),
       (List.range configs.length).map mkRule⟩

/-- `vless.generate_xray_config` from URLs: parse each, keep successes,
propagate a parser exception (`configs.append` only on truthy result). -/
def generate_xray_config (urls : List String) : Except String (Option XrayConfig) :=
  match urls.mapM parse_vless_url with
  | .error e => .error e
  | .ok parsed => .ok (generate_xray_config_core (parsed.filterMap id))

/-! ## Balance prober (`services/pollinations.py`) and reconciliation sweep
(`bot.balance_check_loop`) -/

/-- An upstream response to one probe call, as consumed by
`check_key_balance` (`balanceField`/`tierField`/`nextResetField` model
`data.get(...)` on the parsed JSON). -/
structure ProbeHttpResp where
  status : Nat
  balanceField : Option ℚ
  tierField : Option String
  nextResetField : Option String
deriving DecidableEq, Repr

/-- One probe call either returns a response or raises. -/
inductive CallResult where
  | resp (r : ProbeHttpResp)
  | exn (msg : String)
deriving DecidableEq, Repr

/-- The dict returned by `check_key_balance`, flattened the way
`balance_check_loop` reads it: `balance`/`next_reset_at` are `none` when
the key is missing or null. -/
structure ProbeResult where
  balance : Option ℚ
  tier : Option String
  next_reset_at : Option String
  error : Option String
deriving DecidableEq, Repr

/-- `pollinations.check_key_balance` given the results of its two HTTP
calls (balance first, then profile).  The second component is the list of
calls actually issued, in order. -/
def check_key_balance (balanceCall profileCall : CallResult) :
    ProbeResult × List String :=
  match balanceCall with
  | .exn e => (⟨none, none, none, some e⟩, ["balance"])
  | .resp r =>
      let base : ProbeResult :=
        if r.status = 200 then ⟨some (r.balanceField.getD 0), none, none, none⟩
        else ⟨none, none, none, some ("Balance check failed: " ++ toString r.status)⟩
      match profileCall with
      | .exn e => ({ base with error := some e }, ["balance", "profile"])
      | .resp p =>
          if p.status = 200 then
            ({ base with tier := some (p.tierField.getD ""),
                         next_reset_at := some (p.nextResetField.getD "") },
             ["balance", "profile"])
          else (base, ["balance", "profile"])

/-- The SOCKS port resolved per key in `balance_check_loop`:
`(10801 + vless_idx) if vless_idx is not None and is_xray_running() else None`. -/
def socks_port_for (xrayRunning : Bool) (idx : Option Nat) : Option Nat :=
  match idx with
  | some i => if xrayRunning then some (10801 + i) else none
  | none => none

/-- One sweep of `bot.balance_check_loop` over the snapshot `iter` of
`get_all_keys()`, threading the credential table `st`.  Besides the final
table it returns the probe trace: each probed credential's id with the
SOCKS port used. -/
def balance_cycle (threshold : ℚ) (xrayRunning : Bool) (now : String)
    (oracle : String → Option Nat → CallResult × CallResult) :
    List ApiKey → List ApiKey → List ApiKey × List (Nat × Option Nat)
  | [], st => (st, [])
  | k :: rest, st =>
      let sp := socks_port_for xrayRunning k.vlessConfigIndex
      let calls := oracle k.key sp
      let pr := (check_key_balance calls.1 calls.2).1
      let st1 := update_key_balance k.id pr.balance pr.next_reset_at now st
      let st2 :=
        match pr.balance with
        | some b => if decide (b < threshold) && k.isActive then deactivate_key k.id st1 else st1
        | none => st1
      let r := balance_cycle threshold xrayRunning now oracle rest st2
      (r.1, (k.id, sp) :: r.2)

/-- The per-credential effect of one sweep (derived form: what
`balance_cycle` does to each row when ids are unique). -/
def sweepStep (threshold : ℚ) (xrayRunning : Bool) (now : String)
    (oracle : String → Option Nat → CallResult × CallResult)
    (k : ApiKey) : ApiKey :=
  let sp := socks_port_for xrayRunning k.vlessConfigIndex
  let calls := oracle k.key sp
  let pr := (check_key_balance calls.1 calls.2).1
  let newActive :=
    match pr.balance with
    | some b => if decide (b < threshold) && k.isActive then false else k.isActive
    | none => k.isActive
  { k with pollenBalance := pr.balance, nextResetAt := pr.next_reset_at,
           balanceCheckedAt := some now, isActive := newActive }

/-! ## Concrete values used by the examples in the spec's testable
properties -/

/-- A rational given directly in lowest terms (kernel-reducible, unlike
division of literals). -/
def qv (n : Int) (d : Nat) (h1 : d ≠ 0) (h2 : n.natAbs.Coprime d) : ℚ :=
  ⟨n, d, h1, h2⟩

/-- `0.5`. -/
def qHalf : ℚ := qv 1 2 (by decide) (Nat.coprime_one_left 2)

/-- `0.05`. -/
def qTwentieth : ℚ := qv 1 20 (by decide) (Nat.coprime_one_left 20)

/-- `0.1`, the default balance threshold. -/
def qTenth : ℚ := qv 1 10 (by decide) (Nat.coprime_one_left 10)

/-- `9`. -/
def qNine : ℚ := qv 9 1 (by decide) (Nat.coprime_one_right 9)

/-- `5`. -/
def qFive : ℚ := qv 5 1 (by decide) (Nat.coprime_one_right 5)

/-- `4`. -/
def qFour : ℚ := qv 4 1 (by decide) (Nat.coprime_one_right 4)

/-- `3`. -/
def qThree : ℚ := qv 3 1 (by decide) (Nat.coprime_one_right 3)

/-- Credential id 1 of the spec's selection example (active, balance 0.5). -/
def selK1 : ApiKey := ⟨1, "k1", 0, true, some qHalf, none, none, none⟩

/-- The credential table of the spec's selection example:
`[{id:1,active,bal:0.5},{id:2,active,bal:0.05},{id:3,inactive,bal:9}]`. -/
def selKeys : List ApiKey :=
  [selK1,
   ⟨2, "k2", 1, true, some qTwentieth, none, none, none⟩,
   ⟨3, "k3", 2, false, some qNine, none, none, none⟩]

/-- Two active credentials with EQUAL balances, for the selection
tie counterexample. -/
def tieA : ApiKey := ⟨1, "t1", 0, true, some qHalf, none, none, none⟩

/-- See `tieA`. -/
def tieB : ApiKey := ⟨2, "t2", 1, true, some qHalf, none, none, none⟩

/-- Credentials A, B, C of the spec's rotation example. -/
def exKeyA : ApiKey := ⟨1, "keyA", 0, true, some qFive, none, none, none⟩

/-- See `exKeyA`. -/
def exKeyB : ApiKey := ⟨2, "keyB", 1, true, some qFour, none, none, none⟩

/-- See `exKeyA`. -/
def exKeyC : ApiKey := ⟨3, "keyC", 2, true, some qThree, none, none, none⟩

/-- Upstream behaviour of the rotation example: 402 for A, 402 for B,
200 for anything else. -/
def exOracle : String → UpstreamResult := fun s =>
  if s = "keyA" then .status 402 "quota"
  else if s = "keyB" then .status 402 "quota"
  else .status 200 "bodyC"

/-- An active service token. -/
def exToken : ServiceToken := ⟨1, "tok", "svc", true⟩

/-- An authenticated request to a proxied path. -/
def exReq : Request :=
  ⟨"POST", "/v1/chat", "", [("Authorization", "Bearer tok")], "b"⟩

/-- An upstream oracle that always reports quota exhaustion. -/
def oracle402 : String → UpstreamResult := fun _ => .status 402 "quota"

/-- An upstream oracle that always raises a transport exception. -/
def oracleExn : String → UpstreamResult := fun _ => .exn "boom"

/-- An inactive credential, for the reconciliation-sweep counterexample. -/
def c9KeyInactive : ApiKey := ⟨7, "k7", 0, false, some qFive, none, none, none⟩

/-- Probe responses for the reconciliation examples: balance 3,
reset timestamp `"R"`. -/
def c9Oracle : String → Option Nat → CallResult × CallResult := fun _ _ =>
  (.resp ⟨200, some qThree, none, none⟩, .resp ⟨200, none, some "flower", some "R"⟩)

/-- Two active credentials with distinct ids, for the sweep witness. -/
def c9KeysW : List ApiKey :=
  [⟨1, "ka", 0, true, some qFive, none, none, some 2⟩,
   ⟨2, "kb", 1, true, none, none, none, none⟩]

/-- A parsed descriptor with unsupported transport and security kinds. -/
def kcpCfg : VlessCfg :=
  ⟨"u", "h", 443, "", "kcp", "xtls", "s", "f", "p", "i", "/w", "hh", "svc", "", "", "none"⟩

/-- A websocket + TLS descriptor. -/
def wsTlsCfg : VlessCfg :=
  ⟨"u", "h", 443, "", "ws", "tls", "ex.com", "chrome", "", "", "/w", "hh", "", "", "h2,http/1.1", "none"⟩

/-- A plain TCP descriptor. -/
def tcpCfg : VlessCfg :=
  ⟨"u2", "h2", 8443, "", "tcp", "none", "", "", "", "", "", "", "", "", "", "none"⟩

/-- A row of `vless_configs`. -/
structure VlessConfigRow where
  id : Nat
  url : String
  remark : String
  isActive : Bool
  configIndex : Nat
deriving DecidableEq, Repr

/-- `SELECT COALESCE(MAX(config_index), -1) + 1 FROM vless_configs`. -/
def next_config_index (rows : List VlessConfigRow) : Nat :=
  rows.foldr (fun r acc => max (r.configIndex + 1) acc) 0

/-- `models.add_vless`: assign the next sequential config index and insert
(`INSERT OR IGNORE` on the unique `url`); `id` stands for the
autoincremented rowid. -/
def add_vless (rows : List VlessConfigRow) (id : Nat) (url remark : String) :
    List VlessConfigRow :=
  if rows.any (fun r => r.url == url) then rows
  else rows ++ [⟨id, url, remark, true, next_config_index rows⟩]

/-- `models.delete_vless`: delete the row by id.  (The keys bound to the
deleted tunnel are unbound; keys bound to the surviving tunnels keep
their binding and their tunnels keep their config indices — nothing
reindexes.) -/
def delete_vless (vid : Nat) (rows : List VlessConfigRow) : List VlessConfigRow :=
  rows.filter (fun r => r.id != vid)

/-- Ascending insertion by `config_index` (stable; config indices are
unique, so the result order is exactly `ORDER BY config_index`). -/
def insertAscIdx (a : VlessConfigRow) : List VlessConfigRow → List VlessConfigRow
  | [] => [a]
  | b :: l =>
      if b.configIndex ≤ a.configIndex then b :: insertAscIdx a l
      else a :: b :: l

/-- `ORDER BY config_index` (see `insertAscIdx`). -/
def sortByConfigIndex : List VlessConfigRow → List VlessConfigRow
  | [] => []
  | a :: l => insertAscIdx a (sortByConfigIndex l)

/-- `models.get_active_vless_urls`:
`SELECT url WHERE is_active = 1 ORDER BY config_index`. -/
def get_active_vless_urls (rows : List VlessConfigRow) : List String :=
  (sortByConfigIndex (rows.filter (·.isActive))).map (·.url)

/-- The tunnel table after adding three tunnels (config indices 0, 1, 2)
and deleting the middle one: the surviving rows keep indices 0 and 2. -/
def exVlessTable : List VlessConfigRow :=
  delete_vless 2
    (add_vless
      (add_vless (add_vless [] 1 "vless://u@h" "") 2 "vless://u2@h2:8443" "")
      3 "vless://u3@h3" "")

/-- `parse_vless_url "vless://u@h"`. -/
def cfgA : VlessCfg :=
  ⟨"u", "h", 443, "", "tcp", "none", "", "", "", "", "", "", "", "", "", "none"⟩

/-- `parse_vless_url "vless://u3@h3"`. -/
def cfgC : VlessCfg :=
  ⟨"u3", "h3", 443, "", "tcp", "none", "", "", "", "", "", "", "", "", "", "none"⟩

/-- The daemon config generated from `exVlessTable`'s active urls. -/
def xcDel : XrayConfig :=
  ⟨[mkInbound 0, mkInbound 1],
   [mkOutbound 0 cfgA, mkOutbound 1 cfgC],
   [mkRule 0, mkRule 1]⟩

/-! ## Helper lemmas: the balance order -/

theorem ballt_irrefl (a : Option ℚ) : ballt a a = false := by
  cases a <;> simp [ballt]

theorem ballt_trans {a b c : Option ℚ} (h1 : ballt a b = true)
    (h2 : ballt b c = true) : ballt a c = true := by
  cases a <;> cases b <;> cases c <;> simp_all [ballt]
  exact lt_trans h1 h2

theorem ballt_resolve {a b : Option ℚ} (h : ballt a b = false) :
    ballt b a = true ∨ a = b := by
  cases a with
  | none =>
      cases b with
      | none => exact Or.inr rfl
      | some y => simp [ballt] at h
  | some x =>
      cases b with
      | none => simp [ballt]
      | some y =>
          simp only [ballt, decide_eq_false_iff_not, not_lt] at h
          simp only [ballt, decide_eq_true_eq, Option.some.injEq]
          rcases eq_or_lt_of_le h with h1 | h1
          · exact Or.inr h1.symm
          · exact Or.inl h1

theorem mem_insertDescBal {x a : ApiKey} {l : List ApiKey} :
    x ∈ insertDescBal a l ↔ x = a ∨ x ∈ l := by
  induction l with
  | nil => simp [insertDescBal]
  | cons b t ih =>
      simp only [insertDescBal]
      split
      · simp only [List.mem_cons, ih]
        tauto
      · simp only [List.mem_cons]

theorem ballt_asymm {a b : Option ℚ} (h : ballt a b = true) :
    ballt b a = false := by
  cases a with
  | none =>
      cases b with
      | none => simp [ballt] at h
      | some y => simp [ballt]
  | some x =>
      cases b with
      | none => simp [ballt] at h
      | some y =>
          simp only [ballt, decide_eq_true_eq] at h
          simp only [ballt, decide_eq_false_iff_not, not_lt]
          exact le_of_lt h

theorem sorted_insertDescBal {a : ApiKey} {l : List ApiKey}
    (hl : List.Pairwise (fun x y => ballt x.pollenBalance y.pollenBalance = false) l) :
    List.Pairwise (fun x y => ballt x.pollenBalance y.pollenBalance = false)
      (insertDescBal a l) := by
  induction l with
  | nil => simp [insertDescBal, List.pairwise_cons]
  | cons b t ih =>
      rw [List.pairwise_cons] at hl
      obtain ⟨hb, ht⟩ := hl
      simp only [insertDescBal]
      split
      case isTrue h =>
        rw [List.pairwise_cons]
        refine ⟨?_, ih ht⟩
        intro x hx
        rcases mem_insertDescBal.mp hx with rfl | hx2
        · exact ballt_asymm h
        · exact hb x hx2
      case isFalse h =>
        have hfalse : ballt a.pollenBalance b.pollenBalance = false :=
          Bool.not_eq_true _ ▸ eq_false_of_ne_true h
        rw [List.pairwise_cons]
        refine ⟨?_, List.pairwise_cons.mpr ⟨hb, ht⟩⟩
        intro x hx
        rcases List.mem_cons.mp hx with rfl | hx2
        · exact hfalse
        · cases hax : ballt a.pollenBalance x.pollenBalance with
          | false => rfl
          | true =>
              exfalso
              rcases ballt_resolve (hb x hx2) with hxb | hbx
              · have h2 := ballt_trans hax hxb
                rw [hfalse] at h2
                exact Bool.false_ne_true h2
              · rw [← hbx] at hax
                rw [hfalse] at hax
                exact Bool.false_ne_true hax

theorem mem_sortDescBal {x : ApiKey} {l : List ApiKey} :
    x ∈ sortDescBal l ↔ x ∈ l := by
  induction l with
  | nil => simp [sortDescBal]
  | cons a t ih => simp [sortDescBal, mem_insertDescBal, ih]

theorem sorted_sortDescBal (l : List ApiKey) :
    List.Pairwise (fun x y => ballt x.pollenBalance y.pollenBalance = false)
      (sortDescBal l) := by
  induction l with
  | nil => simp [sortDescBal]
  | cons a t ih => exact sorted_insertDescBal ih

theorem insertDescBal_perm (a : ApiKey) (l : List ApiKey) :
    (insertDescBal a l).Perm (a :: l) := by
  induction l with
  | nil => exact List.Perm.refl _
  | cons b t ih =>
      simp only [insertDescBal]
      split
      · exact (ih.cons b).trans (List.Perm.swap a b t)
      · exact List.Perm.refl _

theorem sortDescBal_perm (l : List ApiKey) : (sortDescBal l).Perm l := by
  induction l with
  | nil => exact List.Perm.refl _
  | cons a t ih => exact (insertDescBal_perm a (sortDescBal t)).trans (ih.cons a)

/-- `get_active_key` is one admissible result of the query contract: the
order `sortDescBal` fixes is a permutation of the filtered rows that is
non-increasing in balance, so the function refines
`select_best_admissible`. -/
theorem get_active_key_admissible (threshold : ℚ) (excl : List Nat)
    (keys : List ApiKey) :
    select_best_admissible threshold excl keys (get_active_key threshold excl keys) :=
  ⟨sortDescBal (keys.filter (eligibleKey threshold)),
   sortDescBal_perm _, sorted_sortDescBal _, rfl⟩

theorem firstNotExcluded_some {R : ApiKey → ApiKey → Prop} {excl : List Nat}
    {l : List ApiKey} {k : ApiKey}
    (hp : l.Pairwise R) (h : firstNotExcluded excl l = some k) :
    k ∈ l ∧ k.id ∉ excl ∧ ∀ x ∈ l, x.id ∉ excl → x ≠ k → R k x := by
  induction l with
  | nil => simp [firstNotExcluded] at h
  | cons a t ih =>
      rw [List.pairwise_cons] at hp
      simp only [firstNotExcluded] at h
      split at h
      case isTrue hmem =>
        obtain ⟨h1, h2, h3⟩ := ih hp.2 h
        refine ⟨List.mem_cons_of_mem a h1, h2, ?_⟩
        intro x hx hxe hxk
        rcases List.mem_cons.mp hx with rfl | hx'
        · exact absurd hmem hxe
        · exact h3 x hx' hxe hxk
      case isFalse hmem =>
        cases h
        refine ⟨List.mem_cons_self _ _, hmem, ?_⟩
        intro x hx hxe hxk
        rcases List.mem_cons.mp hx with rfl | hx'
        · exact absurd rfl hxk
        · exact hp.1 x hx'

theorem firstNotExcluded_none {excl : List Nat} {l : List ApiKey}
    (h : firstNotExcluded excl l = none) : ∀ x ∈ l, x.id ∈ excl := by
  induction l with
  | nil => simp
  | cons a t ih =>
      simp only [firstNotExcluded] at h
      split at h
      case isTrue hmem =>
        intro x hx
        rcases List.mem_cons.mp hx with rfl | hx'
        · exact hmem
        · exact ih h x hx'
      case isFalse hmem => cases h

/-! ## Claim C2 -/

/-- Counterexample to C2 as stated: `ORDER BY pollen_balance DESC` has no
secondary sort term, so for two active credentials with EQUAL balances
both orders are admissible results of the query, and the scan may return
id 2 — the claim's tie-break by ascending index would force id 1
(`some tieA`), so the claimed deterministic tie-break is not a property
of the code. -/
theorem claimC2_counterexample :
    select_best_admissible qTenth [] [tieA, tieB] (some tieB) ∧
    select_best_admissible qTenth [] [tieA, tieB] (some tieA) ∧
    some tieB ≠ some tieA ∧
    tieA.pollenBalance = tieB.pollenBalance ∧
    tieA.keyIndex < tieB.keyIndex ∧
    eligibleKey qTenth tieA = true ∧ eligibleKey qTenth tieB = true ∧
    tieA.id ∉ ([] : List Nat) ∧ tieB.id ∉ ([] : List Nat) :=
  ⟨⟨[tieB, tieA], List.Perm.swap tieA tieB [], by decide, rfl⟩,
   ⟨[tieA, tieB], List.Perm.refl _, by decide, rfl⟩,
   by decide, rfl, by decide, by decide, by decide, by decide, by decide⟩

/-- Claim C2 as amended: `select_best` considers exactly the active
credentials whose balance is unknown (NULL) or at least the threshold and
returns the first non-excluded row of a balance-descending ordering of
them (NULLs last) — but the query has no secondary sort term, so the
order among equal balances is unspecified and no tie-break by index is
guaranteed.  What holds for every admissible result: a returned
credential is eligible, non-excluded, and no eligible non-excluded
credential has a strictly greater balance; `none` is returned exactly
when every eligible credential is excluded.  The spec's example has no
ties among the eligible rows, so every admissible result is id 1, and
`none` once id 1 is excluded. -/
theorem claimC2 :
    (∀ (threshold : ℚ) (excl : List Nat) (keys : List ApiKey) (res : Option ApiKey),
       select_best_admissible threshold excl keys res →
       (∀ k, res = some k →
          k ∈ keys ∧ eligibleKey threshold k = true ∧ k.id ∉ excl ∧
          ∀ x ∈ keys, eligibleKey threshold x = true → x.id ∉ excl →
            ballt k.pollenBalance x.pollenBalance = false) ∧
       (res = none → ∀ k ∈ keys, eligibleKey threshold k = true → k.id ∈ excl)) ∧
    (∀ res, select_best_admissible qTenth [] selKeys res → res = some selK1) ∧
    (∀ res, select_best_admissible qTenth [1] selKeys res → res = none) := by
  refine ⟨?_, ?_, ?_⟩
  · rintro threshold excl keys res ⟨rows, hperm, hsorted, hfirst⟩
    constructor
    · intro k hk
      rw [hk] at hfirst
      obtain ⟨h1, h2, h3⟩ := firstNotExcluded_some hsorted hfirst
      have h1f := hperm.mem_iff.mp h1
      rw [List.mem_filter] at h1f
      refine ⟨h1f.1, h1f.2, h2, ?_⟩
      intro x hx hex hnex
      by_cases hxk : x = k
      · subst hxk
        exact ballt_irrefl _
      · exact h3 x (hperm.mem_iff.mpr (List.mem_filter.mpr ⟨hx, hex⟩)) hnex hxk
    · intro hres k hk helig
      rw [hres] at hfirst
      exact firstNotExcluded_none hfirst k
        (hperm.mem_iff.mpr (List.mem_filter.mpr ⟨hk, helig⟩))
  · rintro res ⟨rows, hperm, hsorted, hfirst⟩
    have hf : selKeys.filter (eligibleKey qTenth) = [selK1] := by decide
    rw [hf] at hperm
    rw [List.perm_singleton.mp hperm] at hfirst
    exact hfirst.symm
  · rintro res ⟨rows, hperm, hsorted, hfirst⟩
    have hf : selKeys.filter (eligibleKey qTenth) = [selK1] := by decide
    rw [hf] at hperm
    rw [List.perm_singleton.mp hperm] at hfirst
    exact hfirst.symm

/-- Witness for the amended C2 at the spec's selection example: the order
produced by the executable model is admissible, returns id 1, and the
theorem's characterization holds of it. -/
theorem claimC2_witness :
    select_best_admissible qTenth [] selKeys (some selK1) ∧
    selK1 ∈ selKeys ∧ eligibleKey qTenth selK1 = true ∧
    selK1.id ∉ ([] : List Nat) ∧
    (∀ x ∈ selKeys, eligibleKey qTenth x = true → x.id ∉ ([] : List Nat) →
      ballt selK1.pollenBalance x.pollenBalance = false) :=
  have hadm : select_best_admissible qTenth [] selKeys (some selK1) :=
    ⟨[selK1], List.Perm.refl _, by decide, rfl⟩
  ⟨hadm,
   ((claimC2.1 qTenth [] selKeys (some selK1) hadm).1 selK1 rfl).1,
   ((claimC2.1 qTenth [] selKeys (some selK1) hadm).1 selK1 rfl).2.1,
   ((claimC2.1 qTenth [] selKeys (some selK1) hadm).1 selK1 rfl).2.2.1,
   ((claimC2.1 qTenth [] selKeys (some selK1) hadm).1 selK1 rfl).2.2.2⟩

/-! ## Claim C3 -/

/-- Claim C3 (evaluation): the parser rejects a wrong scheme and a missing
`@` by returning `none`, defaults a missing port to 443 — but on a
non-numeric port (`vless://u@h:abc`) `int(port_str)` raises a
`ValueError` that escapes `parse_vless_url`, so the parser is not total. -/
theorem claimC3 :
    parse_vless_url "vless://u@h:abc" = .error "ValueError" ∧
    parse_vless_url "vless://uh" = .ok none ∧
    parse_vless_url "nossl://u@h" = .ok none ∧
    parse_vless_url "vless://u@h" =
      .ok (some ⟨"u", "h", 443, "", "tcp", "none", "", "", "", "", "", "", "", "", "", "none"⟩) ∧
    parse_vless_url "vless://u@h:443?type=ws&security=tls&sni=ex.com#Remark" =
      .ok (some ⟨"u", "h", 443, "Remark", "ws", "tls", "ex.com", "", "", "", "", "", "", "", "", "none"⟩) :=
  ⟨rfl, rfl, rfl, rfl, rfl⟩

/-! ## Claim C8 -/

/-- Counterexample to C8 as stated: for the unsupported transport kind
`kcp` the generator emits the unknown kind verbatim in the `network`
field instead of degrading it to `tcp` (plain). Only the security kind
degrades to `none`. -/
theorem claimC8_counterexample :
    (build_stream_settings kcpCfg).network = "kcp" ∧
    (build_stream_settings kcpCfg).network ≠ "tcp" ∧
    (build_stream_settings kcpCfg).security = "none" ∧
    (build_stream_settings kcpCfg).wsSettings = none ∧
    (build_stream_settings kcpCfg).grpcSettings = none ∧
    (build_stream_settings kcpCfg).tcpSettings = none ∧
    (build_stream_settings kcpCfg).tlsSettings = none ∧
    (build_stream_settings kcpCfg).realitySettings = none := by
  decide

/-- Claim C8 as amended: unsupported security kinds degrade to
`security = "none"` with no security settings; unsupported transport kinds
do not fail and get no transport-specific settings block, but the
`network` field carries the unknown kind verbatim (it is not degraded to
plain); each supported kind maps to its fixed parameter set. -/
theorem claimC8 (cfg : VlessCfg) :
    (build_stream_settings cfg).network = cfg.type' ∧
    (cfg.security ≠ "tls" → cfg.security ≠ "reality" →
      (build_stream_settings cfg).security = "none" ∧
      (build_stream_settings cfg).tlsSettings = none ∧
      (build_stream_settings cfg).realitySettings = none) ∧
    (cfg.type' ≠ "ws" → cfg.type' ≠ "grpc" → cfg.type' ≠ "tcp" →
      (build_stream_settings cfg).wsSettings = none ∧
      (build_stream_settings cfg).grpcSettings = none ∧
      (build_stream_settings cfg).tcpSettings = none) ∧
    (cfg.type' = "ws" →
      (build_stream_settings cfg).wsSettings =
        some ⟨optStr cfg.path, optStr cfg.host_header⟩) ∧
    (cfg.type' = "grpc" →
      (build_stream_settings cfg).grpcSettings = some ⟨optStr cfg.serviceName⟩) ∧
    (cfg.security = "tls" →
      (build_stream_settings cfg).security = "tls" ∧
      (build_stream_settings cfg).tlsSettings =
        some ⟨optStr cfg.sni, optStr cfg.fp,
          if cfg.alpn = "" then none else some (splitCommas cfg.alpn)⟩) ∧
    (cfg.security = "reality" →
      (build_stream_settings cfg).security = "reality" ∧
      (build_stream_settings cfg).realitySettings =
        some ⟨optStr cfg.sni, optStr cfg.fp, optStr cfg.pbk, optStr cfg.sid⟩) := by
  simp only [build_stream_settings]
  split_ifs <;> simp_all

/-- Witness for the amended C8 at a websocket + TLS descriptor. -/
theorem claimC8_witness :
    wsTlsCfg.type' = "ws" ∧ wsTlsCfg.security = "tls" ∧
    (build_stream_settings wsTlsCfg).wsSettings = some ⟨some "/w", some "hh"⟩ ∧
    (build_stream_settings wsTlsCfg).security = "tls" ∧
    (build_stream_settings wsTlsCfg).tlsSettings =
      some ⟨some "ex.com", some "chrome", some ["h2", "http/1.1"]⟩ :=
  ⟨rfl, rfl, (claimC8 wsTlsCfg).2.2.2.1 rfl,
   ((claimC8 wsTlsCfg).2.2.2.2.2.1 rfl).1,
   ((claimC8 wsTlsCfg).2.2.2.2.2.1 rfl).2⟩

/-! ## Claim C7 -/

/-- Claim C7 (code-bug evaluation): each component alone uses
`10801 + index` — the generator binds position `i`'s inbound to
`127.0.0.1:(10801+i)` and `_get_connector` dials `10801 + k` for stored
config index `k` — but stored index and generator-list position diverge
in reachable states.  `add_vless` assigns `MAX(config_index)+1` and
`delete_vless` never reindexes, so after adding three tunnels and
deleting the middle one the surviving rows carry indices 0 and 2 while
the daemon enumerates them at positions 0 and 1: it listens on 10801 and
10802, yet for a credential bound to the index-2 tunnel the proxy dials
10803, a port no inbound listens on. -/
theorem claimC7 :
    (∀ k, get_connector_port true (some k) = some (10801 + k)) ∧
    exVlessTable.map (fun r => r.configIndex) = [0, 2] ∧
    exVlessTable.map (fun r => r.isActive) = [true, true] ∧
    get_active_vless_urls exVlessTable = ["vless://u@h", "vless://u3@h3"] ∧
    generate_xray_config (get_active_vless_urls exVlessTable) = .ok (some xcDel) ∧
    xcDel.inbounds.map (fun ib => ib.port) = [10801, 10802] ∧
    get_connector_port true (some 2) = some 10803 ∧
    (∀ ib ∈ xcDel.inbounds, ib.port ≠ 10803) := by
  refine ⟨fun k => rfl, rfl, rfl, rfl, rfl, rfl, rfl, ?_⟩
  decide

/-! ## Helper lemmas: the rotation loop and authentication -/

theorem status_tag_cases (c : Nat) :
    status_tag c = "ok" ∨ (400 ≤ c ∧ status_tag c = "error_" ++ toString c) := by
  unfold status_tag
  split
  · exact Or.inl rfl
  · exact Or.inr ⟨by omega, rfl⟩

theorem rotate_status_ne_402 (upstream : String → UpstreamResult)
    (threshold : ℚ) (now path method : String) (tokenId : Nat) :
    ∀ (n : Nat) (tried : List Nat) (st : ProxyState),
      (rotate upstream threshold now path method tokenId n tried st).1.status ≠ 402 := by
  intro n
  induction n with
  | zero => intro tried st; simp [rotate]
  | succ n ih =>
      intro tried st
      simp only [rotate]
      split
      · simp
      · split
        · simp
        · split
          · exact ih _ _
          · simp_all

theorem rotate_attempts_length (upstream : String → UpstreamResult)
    (threshold : ℚ) (now path method : String) (tokenId : Nat) :
    ∀ (n : Nat) (tried : List Nat) (st : ProxyState),
      (rotate upstream threshold now path method tokenId n tried st).2.2.length ≤ n := by
  intro n
  induction n with
  | zero => intro tried st; simp [rotate]
  | succ n ih =>
      intro tried st
      simp only [rotate]
      split
      · simp
      · split
        · simp
        · split
          · exact Nat.succ_le_succ (ih _ _)
          · simp

theorem rotate_log_outcomes (upstream : String → UpstreamResult)
    (threshold : ℚ) (now path method : String) (tokenId : Nat) :
    ∀ (n : Nat) (tried : List Nat) (st : ProxyState) (en : LogEntry),
      en ∈ (rotate upstream threshold now path method tokenId n tried st).2.1.log →
      en ∈ st.log ∨ en.status = "key_exhausted" ∨ en.status = "ok" ∨
        en.status = "exception" ∨ en.status = "no_keys" ∨
        ∃ c, 400 ≤ c ∧ en.status = "error_" ++ toString c := by
  intro n
  induction n with
  | zero =>
      intro tried st en hen
      simp only [rotate, List.mem_append, List.mem_singleton] at hen
      rcases hen with hen | rfl
      · exact Or.inl hen
      · exact Or.inr (Or.inr (Or.inr (Or.inr (Or.inl rfl))))
  | succ n ih =>
      intro tried st en hen
      simp only [rotate] at hen
      split at hen
      · simp only [List.mem_append, List.mem_singleton] at hen
        rcases hen with hen | rfl
        · exact Or.inl hen
        · exact Or.inr (Or.inr (Or.inr (Or.inr (Or.inl rfl))))
      · split at hen
        · simp only [List.mem_append, List.mem_singleton] at hen
          rcases hen with hen | rfl
          · exact Or.inl hen
          · exact Or.inr (Or.inr (Or.inr (Or.inl rfl)))
        · split at hen
          · rcases ih _ _ en hen with hen2 | hrest
            · simp only [List.mem_append, List.mem_singleton] at hen2
              rcases hen2 with hen2 | rfl
              · exact Or.inl hen2
              · exact Or.inr (Or.inl rfl)
            · exact Or.inr hrest
          · simp only [List.mem_append, List.mem_singleton] at hen
            rcases hen with hen | rfl
            · exact Or.inl hen
            · rcases status_tag_cases ‹Nat› with hst | ⟨hc4, hst⟩
              · exact Or.inr (Or.inr (Or.inl hst))
              · exact Or.inr (Or.inr (Or.inr (Or.inr (Or.inr ⟨_, hc4, hst⟩))))

theorem authenticate_error_form {headers : List (String × String)}
    {tokens : List ServiceToken} {e : Response}
    (h : authenticate headers tokens = .error e) :
    ∃ msg, e = ⟨401, .jsonError msg⟩ := by
  simp only [authenticate] at h
  split at h
  · split at h
    · cases h
    · cases h
      exact ⟨_, rfl⟩
  · cases h
    exact ⟨_, rfl⟩

theorem authenticate_error_of_invalid {headers : List (String × String)}
    {tokens : List ServiceToken}
    (h : ¬ (bearerForm (headerD headers "Authorization" "") = true ∧
          ∃ t ∈ tokens, t.isActive = true ∧
            t.token = bearerValue (headerD headers "Authorization" ""))) :
    ∃ msg, authenticate headers tokens = .error ⟨401, .jsonError msg⟩ := by
  simp only [authenticate]
  split
  case isTrue hbf =>
    split
    case h_1 t ht =>
      exfalso
      rw [get_token_by_value] at ht
      have hmem : t ∈ tokens := List.mem_of_find?_eq_some ht
      have hpred := List.find?_some ht
      rw [Bool.and_eq_true, beq_iff_eq] at hpred
      exact h ⟨hbf, t, hmem, hpred.2, hpred.1⟩
    case h_2 ht => exact ⟨_, rfl⟩
  case isFalse hbf => exact ⟨_, rfl⟩

/-! ## Claim C4 -/

/-- Claim C4: when a rotation attempt finds no eligible credential outside
the already-tried set, the handler stops with a 503, logs `no_keys`, and
leaves the credential table untouched; and no request ever makes more
than 3 upstream attempts. -/
theorem claimC4 :
    (∀ (upstream : String → UpstreamResult) (threshold : ℚ)
       (now path method : String) (tokenId n : Nat) (tried : List Nat)
       (st : ProxyState),
       get_active_key threshold tried st.keys = none →
       rotate upstream threshold now path method tokenId (n + 1) tried st =
         (⟨503, .jsonError "No active API keys available"⟩,
          ⟨st.keys, st.log ++ [⟨path, method, "no_keys", none, some tokenId⟩]⟩,
          ([] : List Nat))) ∧
    (∀ (tokens : List ServiceToken) (upstream : String → UpstreamResult)
       (threshold : ℚ) (now : String) (xr : Bool) (req : Request)
       (st : ProxyState),
       (proxy_handler tokens upstream threshold now xr req st).2.2.length ≤ 3) := by
  constructor
  · intro upstream threshold now path method tokenId n tried st hsel
    simp only [rotate, hsel]
  · intro tokens upstream threshold now xr req st
    by_cases h1 : req.path = "/health"
    · simp [proxy_handler, h1]
    · by_cases h2 : req.path = "/status"
      · simp [proxy_handler, h1, h2]
      · simp only [proxy_handler, if_neg h1, if_neg h2]
        cases ha : authenticate req.headers tokens with
        | error e => simp
        | ok tok =>
            exact rotate_attempts_length upstream threshold now req.path req.method tok.id 3 [] st

/-- Witness for C4: an empty credential table yields the 503 `no_keys`
outcome at once, with no upstream attempt. -/
theorem claimC4_witness :
    get_active_key qTenth [] (⟨[], []⟩ : ProxyState).keys = none ∧
    rotate oracle402 qTenth "T" "/p" "GET" 9 3 [] ⟨[], []⟩ =
      (⟨503, .jsonError "No active API keys available"⟩,
       ⟨[], [] ++ [⟨"/p", "GET", "no_keys", none, some 9⟩]⟩,
       ([] : List Nat)) :=
  ⟨rfl,
   claimC4.1 oracle402 qTenth "T" "/p" "GET" 9 2 [] ⟨[], []⟩ rfl⟩

/-! ## Claim C5 -/

/-- Claim C5: for any proxied path other than `/health` and `/status`,
a request whose `Authorization` header is absent, not of Bearer form, or
naming no active service token gets a 401 structured JSON error, with the
state untouched and no upstream attempt. -/
theorem claimC5 (tokens : List ServiceToken) (upstream : String → UpstreamResult)
    (threshold : ℚ) (now : String) (xr : Bool) (req : Request) (st : ProxyState)
    (h1 : req.path ≠ "/health") (h2 : req.path ≠ "/status")
    (h3 : ¬ (bearerForm (headerD req.headers "Authorization" "") = true ∧
          ∃ t ∈ tokens, t.isActive = true ∧
            t.token = bearerValue (headerD req.headers "Authorization" ""))) :
    ∃ msg, proxy_handler tokens upstream threshold now xr req st =
      (⟨401, .jsonError msg⟩, st, ([] : List Nat)) := by
  obtain ⟨msg, hmsg⟩ := authenticate_error_of_invalid h3
  refine ⟨msg, ?_⟩
  simp only [proxy_handler, if_neg h1, if_neg h2, hmsg]

/-- Witness for C5: a request with no `Authorization` header at all. -/
theorem claimC5_witness :
    ∃ msg, proxy_handler [exToken] exOracle qTenth "T" false
      ⟨"GET", "/v1/x", "", [], ""⟩ ⟨[exKeyA], []⟩ =
      (⟨401, .jsonError msg⟩, ⟨[exKeyA], []⟩, ([] : List Nat)) :=
  claimC5 [exToken] exOracle qTenth "T" false ⟨"GET", "/v1/x", "", [], ""⟩
    ⟨[exKeyA], []⟩ (by decide) (by decide) (by decide)

/-! ## Claim C6 -/

/-- Claim C6: a transport exception on an upstream attempt logs outcome
`exception` and returns 502 at once: no further rotation attempt is made
and the credential table (active flags and balances) is unchanged. -/
theorem claimC6 (upstream : String → UpstreamResult) (threshold : ℚ)
    (now path method : String) (tokenId n : Nat) (tried : List Nat)
    (st : ProxyState) (kd : ApiKey) (msg : String)
    (hsel : get_active_key threshold tried st.keys = some kd)
    (hup : upstream kd.key = .exn msg) :
    rotate upstream threshold now path method tokenId (n + 1) tried st =
      (⟨502, .jsonError "Upstream connection failed"⟩,
       ⟨st.keys, st.log ++ [⟨path, method, "exception", some kd.id, some tokenId⟩]⟩,
       [kd.id]) := by
  simp only [rotate, hsel, hup]

/-- Witness for C6: a credential whose upstream call raises. -/
theorem claimC6_witness :
    get_active_key qTenth [] (⟨[exKeyA], []⟩ : ProxyState).keys = some exKeyA ∧
    oracleExn exKeyA.key = .exn "boom" ∧
    rotate oracleExn qTenth "T" "/p" "GET" 9 3 [] ⟨[exKeyA], []⟩ =
      (⟨502, .jsonError "Upstream connection failed"⟩,
       ⟨[exKeyA], [] ++ [⟨"/p", "GET", "exception", some exKeyA.id, some 9⟩]⟩,
       [exKeyA.id]) :=
  ⟨by decide, rfl,
   claimC6 oracleExn qTenth "T" "/p" "GET" 9 2 [] ⟨[exKeyA], []⟩ exKeyA "boom"
     (by decide) rfl⟩

/-! ## Claim C10 -/

/-- Claim C10: a request that fails authentication writes no request-log
entry and leaves the credential pool untouched; every entry the handler
ever appends carries one of the outcomes `key_exhausted`, `ok`,
`exception`, `no_keys` or `error_<code>` (code ≥ 400), so the log records
only authenticated attempts. -/
theorem claimC10 (tokens : List ServiceToken) (upstream : String → UpstreamResult)
    (threshold : ℚ) (now : String) (xr : Bool) (req : Request) (st : ProxyState) :
    (req.path ≠ "/health" → req.path ≠ "/status" →
      ∀ e, authenticate req.headers tokens = .error e →
        proxy_handler tokens upstream threshold now xr req st =
          (e, st, ([] : List Nat)) ∧ e.status = 401) ∧
    (∀ en ∈ (proxy_handler tokens upstream threshold now xr req st).2.1.log,
      en ∈ st.log ∨ en.status = "key_exhausted" ∨ en.status = "ok" ∨
        en.status = "exception" ∨ en.status = "no_keys" ∨
        ∃ c, 400 ≤ c ∧ en.status = "error_" ++ toString c) := by
  constructor
  · intro h1 h2 e he
    obtain ⟨msg, rfl⟩ := authenticate_error_form he
    constructor
    · simp only [proxy_handler, if_neg h1, if_neg h2, he]
    · rfl
  · intro en hen
    by_cases h1 : req.path = "/health"
    · simp only [proxy_handler, if_pos h1] at hen
      exact Or.inl hen
    · by_cases h2 : req.path = "/status"
      · simp only [proxy_handler, if_neg h1, if_pos h2] at hen
        exact Or.inl hen
      · simp only [proxy_handler, if_neg h1, if_neg h2] at hen
        cases ha : authenticate req.headers tokens with
        | error e =>
            rw [ha] at hen
            exact Or.inl hen
        | ok tok =>
            rw [ha] at hen
            exact rotate_log_outcomes upstream threshold now req.path req.method
              tok.id 3 [] st en hen

/-- Witness for C10: the unauthenticated request from the C5 witness
leaves the state exactly as it was. -/
theorem claimC10_witness :
    proxy_handler [exToken] exOracle qTenth "T" false
      ⟨"GET", "/v1/x", "", [], ""⟩ ⟨[exKeyA], []⟩ =
      (⟨401, .jsonError "Missing or invalid Authorization header. Use: Bearer <token>"⟩,
       ⟨[exKeyA], []⟩, ([] : List Nat)) ∧
    (⟨401, .jsonError "Missing or invalid Authorization header. Use: Bearer <token>"⟩ : Response).status = 401 :=
  (claimC10 [exToken] exOracle qTenth "T" false ⟨"GET", "/v1/x", "", [], ""⟩
      ⟨[exKeyA], []⟩).1 (by decide) (by decide) _ rfl

/-! ## Claim C1 -/

/-- Claim C1: a 402 on an upstream attempt deactivates the selected
credential, zeroes its balance, logs `key_exhausted`, and continues with
the credential excluded — the 402 itself is never what the client
receives (the handler's status is never 402); and the spec's 402/402/200
scenario makes exactly 3 upstream attempts, leaves A and B inactive with
balance 0, returns C's 200 body, and logs
`key_exhausted, key_exhausted, ok`. -/
theorem claimC1 :
    (∀ (upstream : String → UpstreamResult) (threshold : ℚ)
       (now path method : String) (tokenId n : Nat) (tried : List Nat)
       (st : ProxyState) (kd : ApiKey) (b : String),
       get_active_key threshold tried st.keys = some kd →
       upstream kd.key = .status 402 b →
       rotate upstream threshold now path method tokenId (n + 1) tried st =
         (let st2 : ProxyState :=
            ⟨update_key_balance kd.id (some 0) none now (deactivate_key kd.id st.keys),
             st.log ++ [⟨path, method, "key_exhausted", some kd.id, some tokenId⟩]⟩
          let r := rotate upstream threshold now path method tokenId n (kd.id :: tried) st2
          (r.1, r.2.1, kd.id :: r.2.2))) ∧
    (∀ (tokens : List ServiceToken) (upstream : String → UpstreamResult)
       (threshold : ℚ) (now : String) (xr : Bool) (req : Request)
       (st : ProxyState),
       (proxy_handler tokens upstream threshold now xr req st).1.status ≠ 402) ∧
    proxy_handler [exToken] exOracle qTenth "T" false exReq
        ⟨[exKeyA, exKeyB, exKeyC], []⟩ =
      (⟨200, .upstream "bodyC"⟩,
       ⟨[⟨1, "keyA", 0, false, some 0, none, some "T", none⟩,
         ⟨2, "keyB", 1, false, some 0, none, some "T", none⟩,
         exKeyC],
        [⟨"/v1/chat", "POST", "key_exhausted", some 1, some 1⟩,
         ⟨"/v1/chat", "POST", "key_exhausted", some 2, some 1⟩,
         ⟨"/v1/chat", "POST", "ok", some 3, some 1⟩]⟩,
       [1, 2, 3]) := by
  refine ⟨?_, ?_, by decide⟩
  · intro upstream threshold now path method tokenId n tried st kd b hsel hup
    simp only [rotate, hsel, hup, if_pos]
  · intro tokens upstream threshold now xr req st
    by_cases h1 : req.path = "/health"
    · simp [proxy_handler, h1]
    · by_cases h2 : req.path = "/status"
      · simp [proxy_handler, h1, h2]
      · simp only [proxy_handler, if_neg h1, if_neg h2]
        cases ha : authenticate req.headers tokens with
        | error e =>
            obtain ⟨msg, rfl⟩ := authenticate_error_form ha
            simp
        | ok tok =>
            exact rotate_status_ne_402 upstream threshold now req.path req.method
              tok.id 3 [] st

/-- Witness for C1's per-attempt clause: one credential whose upstream
answer is 402. -/
theorem claimC1_witness :
    get_active_key qTenth [] (⟨[exKeyA], []⟩ : ProxyState).keys = some exKeyA ∧
    oracle402 exKeyA.key = .status 402 "quota" ∧
    rotate oracle402 qTenth "T" "/p" "GET" 9 1 [] ⟨[exKeyA], []⟩ =
      (let st2 : ProxyState :=
         ⟨update_key_balance exKeyA.id (some 0) none "T"
            (deactivate_key exKeyA.id (⟨[exKeyA], []⟩ : ProxyState).keys),
          (⟨[exKeyA], []⟩ : ProxyState).log ++
            [⟨"/p", "GET", "key_exhausted", some exKeyA.id, some 9⟩]⟩
       let r := rotate oracle402 qTenth "T" "/p" "GET" 9 0 (exKeyA.id :: []) st2
       (r.1, r.2.1, exKeyA.id :: r.2.2)) :=
  ⟨by decide, rfl,
   claimC1.1 oracle402 qTenth "T" "/p" "GET" 9 0 [] ⟨[exKeyA], []⟩ exKeyA "quota"
     (by decide) rfl⟩

/-! ## Helper lemmas: table updates and the reconciliation sweep -/

theorem mapById_of_not_mem {i : Nat} {f : ApiKey → ApiKey} {l : List ApiKey}
    (h : ∀ e ∈ l, e.id ≠ i) : mapById i f l = l := by
  induction l with
  | nil => rfl
  | cons a t ih =>
      have ha := h a (List.mem_cons_self a t)
      have ht := ih (fun e he => h e (List.mem_cons_of_mem a he))
      simp only [mapById, List.map_cons] at ht ⊢
      rw [if_neg ha, ht]

theorem mapById_append {i : Nat} {f : ApiKey → ApiKey} {l1 l2 : List ApiKey} :
    mapById i f (l1 ++ l2) = mapById i f l1 ++ mapById i f l2 := by
  simp [mapById]

theorem mapById_cons {i : Nat} {f : ApiKey → ApiKey} {a : ApiKey} {l : List ApiKey} :
    mapById i f (a :: l) = (if a.id = i then f a else a) :: mapById i f l := rfl

theorem balance_cycle_trace (threshold : ℚ) (xr : Bool) (now : String)
    (oracle : String → Option Nat → CallResult × CallResult) :
    ∀ (iter st : List ApiKey),
      (balance_cycle threshold xr now oracle iter st).2 =
        iter.map (fun k => (k.id, socks_port_for xr k.vlessConfigIndex)) := by
  intro iter
  induction iter with
  | nil => intro st; rfl
  | cons k rest ih =>
      intro st
      simp only [balance_cycle, List.map_cons]
      rw [ih]

theorem balance_cycle_go (threshold : ℚ) (xr : Bool) (now : String)
    (oracle : String → Option Nat → CallResult × CallResult) :
    ∀ (iter pre : List ApiKey),
      iter.Pairwise (fun a b => a.id ≠ b.id) →
      (∀ k ∈ iter, ∀ e ∈ pre, e.id ≠ k.id) →
      (balance_cycle threshold xr now oracle iter (pre ++ iter)).1 =
        pre ++ iter.map (sweepStep threshold xr now oracle) := by
  intro iter
  induction iter with
  | nil =>
      intro pre _ _
      simp [balance_cycle]
  | cons k rest ih =>
      intro pre hpw hpre
      rw [List.pairwise_cons] at hpw
      obtain ⟨hk, hrest⟩ := hpw
      have hnotpre : ∀ e ∈ pre, e.id ≠ k.id :=
        fun e he => hpre k (List.mem_cons_self k rest) e he
      have hnotrest : ∀ e ∈ rest, e.id ≠ k.id :=
        fun e he => (hk e he).symm
      have hmap : ∀ (f : ApiKey → ApiKey) (x : ApiKey), x.id = k.id →
          mapById k.id f (pre ++ x :: rest) = pre ++ f x :: rest := by
        intro f x hx
        rw [mapById_append, mapById_of_not_mem hnotpre, mapById_cons,
          if_pos hx, mapById_of_not_mem hnotrest]
      have hih : ∀ x : ApiKey, x.id = k.id →
          (balance_cycle threshold xr now oracle rest (pre ++ x :: rest)).1 =
            (pre ++ [x]) ++ rest.map (sweepStep threshold xr now oracle) := by
        intro x hx
        have hpre2 : ∀ k2 ∈ rest, ∀ e ∈ pre ++ [x], e.id ≠ k2.id := by
          intro k2 hk2 e he
          rcases List.mem_append.mp he with he | he
          · exact hpre k2 (List.mem_cons_of_mem k hk2) e he
          · rw [List.mem_singleton.mp he, hx]
            exact hk k2 hk2
        have := ih (pre ++ [x]) hrest hpre2
        rwa [List.append_assoc, List.singleton_append] at this
      have hmap4 : ∀ (bal : Option ℚ) (nr : Option String),
          update_key_balance k.id bal nr now (pre ++ k :: rest) =
            pre ++ { k with pollenBalance := bal, nextResetAt := nr,
                            balanceCheckedAt := some now } :: rest := by
        intro bal nr
        rw [update_key_balance, hmap _ k rfl]
      have hmap3 : ∀ (bal : Option ℚ) (nr : Option String),
          deactivate_key k.id (update_key_balance k.id bal nr now (pre ++ k :: rest)) =
            pre ++ { k with pollenBalance := bal, nextResetAt := nr,
                            balanceCheckedAt := some now, isActive := false } :: rest := by
        intro bal nr
        rw [hmap4, deactivate_key,
          hmap (fun e => { e with isActive := false })
            ({ k with pollenBalance := bal, nextResetAt := nr,
                      balanceCheckedAt := some now }) rfl]
      simp only [balance_cycle, sweepStep, List.map_cons]
      cases hbal : (check_key_balance (oracle k.key (socks_port_for xr k.vlessConfigIndex)).1
          (oracle k.key (socks_port_for xr k.vlessConfigIndex)).2).1.balance with
      | none =>
          simp only []
          rw [hmap4]
          refine (hih _ ?_).trans ?_
          · rfl
          · rw [List.append_assoc, List.singleton_append]
      | some b =>
          simp only []
          by_cases hcond : (decide (b < threshold) && k.isActive) = true
          · rw [if_pos hcond, if_pos hcond, hmap3]
            refine (hih _ ?_).trans ?_
            · rfl
            · rw [List.append_assoc, List.singleton_append]
          · rw [if_neg hcond, if_neg hcond, hmap4]
            refine (hih _ ?_).trans ?_
            · rfl
            · rw [List.append_assoc, List.singleton_append]

/-! ## Claim C9 -/

/-- Counterexample to C9 as stated: the sweep iterates over
`get_all_keys()` — all credentials — so an inactive credential is probed
(it appears in the probe trace) and mutated (balance, reset timestamp and
checked timestamp all updated), contradicting "inactive credentials are
not probed or mutated". -/
theorem claimC9_counterexample :
    c9KeyInactive.isActive = false ∧
    (balance_cycle qTenth false "T" c9Oracle [c9KeyInactive] [c9KeyInactive]).2 =
      [(7, (none : Option Nat))] ∧
    (balance_cycle qTenth false "T" c9Oracle [c9KeyInactive] [c9KeyInactive]).1 =
      [⟨7, "k7", 0, false, some qThree, some "R", some "T", none⟩] ∧
    (⟨7, "k7", 0, false, some qThree, some "R", some "T", none⟩ : ApiKey) ≠
      c9KeyInactive := by
  decide

/-- Claim C9 as amended: in every sweep cycle exactly the credentials of
the `get_all_keys()` snapshot — active and inactive alike — are probed, in
order, each with its tunnel port resolved only when the daemon runs; each
credential's balance, reset timestamp and checked timestamp are updated
from the probe, and it is deactivated when the probed balance is below the
threshold while it was still marked active (`sweepStep`). -/
theorem claimC9 (threshold : ℚ) (xr : Bool) (now : String)
    (oracle : String → Option Nat → CallResult × CallResult)
    (keys : List ApiKey) (hids : keys.Pairwise (fun a b => a.id ≠ b.id)) :
    (balance_cycle threshold xr now oracle keys keys).1 =
      keys.map (sweepStep threshold xr now oracle) ∧
    (balance_cycle threshold xr now oracle keys keys).2 =
      keys.map (fun k => (k.id, socks_port_for xr k.vlessConfigIndex)) := by
  constructor
  · have := balance_cycle_go threshold xr now oracle keys [] hids (by simp)
    simpa using this
  · exact balance_cycle_trace threshold xr now oracle keys keys

/-- Witness for the amended C9 on two credentials with distinct ids, one
bound to the tunnel at index 2 while the daemon runs. -/
theorem claimC9_witness :
    c9KeysW.Pairwise (fun a b => a.id ≠ b.id) ∧
    (balance_cycle qTenth true "T" c9Oracle c9KeysW c9KeysW).1 =
      c9KeysW.map (sweepStep qTenth true "T" c9Oracle) ∧
    (balance_cycle qTenth true "T" c9Oracle c9KeysW c9KeysW).2 =
      [(1, some 10803), (2, (none : Option Nat))] :=
  ⟨by decide,
   (claimC9 qTenth true "T" c9Oracle c9KeysW (by decide)).1,
   (claimC9 qTenth true "T" c9Oracle c9KeysW (by decide)).2⟩
